import Mathlib

/-!
Verification of the deep-research agent's isolation boundary, query client and
observer filter (src/agent/tools.py, src/agent/main.py), via a shallow
embedding in Lean.

Python dicts with optional keys are modelled as structures with `Option`
fields; a raised exception is modelled as `Except.error`; the external search
provider (Tavily) and the environment variables are modelled as an explicit
`Env` record threaded through the functions.
-/

/-- A raw provider record from the Tavily response's `results` list.  Each
field may be absent (or `None`), which `r.get(..., "")` / `or ""` in the
Python code defaults to the empty string. -/
structure RawResult where
  url : Option String
  title : Option String
  content : Option String
deriving Repr, DecidableEq

/-- A `SearchResult` dict as produced by `_do_internet_search`
(src/agent/tools.py): either a formatted result with keys `url`, `title`,
`content`, or the failure sentinel whose only key is `error`.  A `none` field
models an absent key. -/
structure SearchResult where
  url : Option String
  title : Option String
  content : Option String
  error : Option String
deriving Repr, DecidableEq

/-- Python exceptions crossing a function boundary.  `runtimeError` models
`RuntimeError` (raised at src/agent/tools.py line 33); `nestedFault` models an
arbitrary unrecoverable fault raised inside the nested task executor;
`researchFailed` is the typed failure the specification describes
(`ResearchFailed{cause}`) — the code model never constructs it, it exists so
the specification's claim can be compared against the code's behaviour. -/
inductive PyExc where
  | runtimeError (msg : String)
  | nestedFault (msg : String)
  | researchFailed (cause : String)
deriving Repr, DecidableEq

/-- The external world: the `TAVILY_API_KEY` environment variable and the
Tavily provider, mapping a query and a `max_results` bound to either a raised
exception (message) or a list of raw records. -/
structure Env where
  tavilyKey : Option String
  provider : String → Nat → Except String (List RawResult)

/-- Python truthiness of `os.environ.get("TAVILY_API_KEY")`: falsy when the
variable is unset or the empty string (src/agent/tools.py lines 31-32). -/
def hasTavilyKey (env : Env) : Bool :=
  match env.tavilyKey with
  | none => false
  | some k => !(k == "")

/-- Python string slicing `s[:n]`: the first `n` code points. -/
def pyTruncate (s : String) (n : Nat) : String :=
  ⟨s.data.take n⟩

/-- One formatted result (src/agent/tools.py lines 47-51): keys `url`,
`title`, `content` are always present, absent provider fields default to `""`,
and `content` is truncated to 3000 characters. -/
def formatResult (r : RawResult) : SearchResult :=
  { url := some (r.url.getD "")
  , title := some (r.title.getD "")
  , content := some (pyTruncate (r.content.getD "") 3000)
  , error := none }

/-- The failure sentinel `{"error": str(e)}` (src/agent/tools.py line 58):
its only key is `error`. -/
def errorSentinel (msg : String) : SearchResult :=
  { url := none, title := none, content := none, error := some msg }

/-- `_do_internet_search` (src/agent/tools.py lines 19-58): raises
`RuntimeError` when the API key is missing (line 33, outside the `try`),
otherwise formats the provider's results; any exception inside the `try` is
caught and becomes the single-element sentinel list. -/
def do_internet_search (env : Env) (query : String) (max_results : Nat) :
    Except PyExc (List SearchResult) :=
  if hasTavilyKey env then
    match env.provider query max_results with
    | Except.error e => Except.ok [errorSentinel e]
    | Except.ok rs => Except.ok (rs.map formatResult)
  else
    Except.error (PyExc.runtimeError "TAVILY_API_KEY not set")

/-- `internet_search_tracked` (src/agent/tools.py lines 110-122): performs the
search, appends the raw results to the invocation's captured trace
(`search_results.extend(results)`), then returns them unchanged.  The mutable
closure list is modelled by explicit state passing: the result pairs the new
trace with the value returned to the task executor. -/
def internet_search_tracked (env : Env) (trace : List SearchResult)
    (query : String) (max_results : Nat) :
    Except PyExc (List SearchResult × List SearchResult) :=
  match do_internet_search env query max_results with
  | Except.error e => Except.error e
  | Except.ok results => Except.ok (trace ++ results, results)

/-- The behaviour of one opaque task-executor run inside the isolation
boundary: the sequence of `(query, max_results)` invocations it makes against
its sole capability (the tracked search), and its final outcome — the summary
text of the last message, or an unrecoverable fault it raises. -/
structure ExecutorScript where
  calls : List (String × Nat)
  outcome : Except PyExc String

/-- Threads the invocation's captured trace through the executor's sequence of
tracked search calls (the closure list `search_results` of
src/agent/tools.py lines 107-122, mutated only by
`internet_search_tracked`). -/
def runTrackedCalls (env : Env) (trace : List SearchResult) :
    List (String × Nat) → Except PyExc (List SearchResult)
  | [] => Except.ok trace
  | (q, n) :: rest =>
    match internet_search_tracked env trace q n with
    | Except.error e => Except.error e
    | Except.ok (traceNew, _) => runTrackedCalls env traceNew rest

/-- A `SourceRecord` dict built at src/agent/tools.py lines 158-163: keys
`url`, `title`, `content`, `status` are always present and no `error` key
exists. -/
structure SourceRecord where
  url : String
  title : String
  content : String
  status : String
deriving Repr, DecidableEq

/-- The structured result of one `research` call
(src/agent/tools.py line 167). -/
structure ResearchOutcome where
  summary : String
  sources : List SourceRecord
deriving Repr, DecidableEq

/-- Python truthiness of `r.get("error")` being falsy (`not r.get("error")`,
src/agent/tools.py line 164): true when the `error` key is absent or holds the
empty string. -/
def pyFalsy : Option String → Bool
  | none => true
  | some s => s == ""

/-- The filter of src/agent/tools.py line 164:
`"url" in r and not r.get("error")` — the `url` KEY must be present (its value
may be any string, including `""`) and `error` must be falsy. -/
def keepSource (r : SearchResult) : Bool :=
  r.url.isSome && pyFalsy r.error

/-- The source-record construction of src/agent/tools.py lines 158-163:
`r["url"]` (the filter guarantees the key is present), `r.get("title", "")`,
`r.get("content", "")[:3000]`, and the constant status `"found"`. -/
def mkSource (r : SearchResult) : SourceRecord :=
  { url := r.url.getD ""
  , title := r.title.getD ""
  , content := pyTruncate (r.content.getD "") 3000
  , status := "found" }

/-- `_run_research_isolated` (src/agent/tools.py lines 101-167): allocates a
fresh empty trace (`search_results = []`, line 107), runs the executor with
the tracked search as its only capability, then filters the captured trace
into source records, preserving capture order, and pairs it with the
summary. -/
def run_research_isolated (env : Env) (script : ExecutorScript) :
    Except PyExc ResearchOutcome :=
  match runTrackedCalls env [] script.calls with
  | Except.error e => Except.error e
  | Except.ok search_results =>
    match script.outcome with
    | Except.error e => Except.error e
    | Except.ok summary =>
      Except.ok
        { summary := summary
        , sources := (search_results.filter keepSource).map mkSource }

/-- The `research` tool (src/agent/tools.py lines 79-176): submits
`_run_research_isolated` to a freshly created single-worker executor and
blocks on `future.result()`, which returns the nested run's value or
re-raises, unchanged, any exception the nested run raised — there is no
`try`/`except` around it, so the value and the exception both cross the
boundary as-is. -/
def research (env : Env) (script : ExecutorScript) :
    Except PyExc ResearchOutcome :=
  run_research_isolated env script

/-- The captured trace an invocation accumulates, when no search call raises:
the successful value of `runTrackedCalls` starting from the fresh empty
list. -/
def capturedTrace (env : Env) (script : ExecutorScript) :
    Except PyExc (List SearchResult) :=
  runTrackedCalls env [] script.calls

/-! ### Timing model of concurrent `research` calls

The Python `research` tool creates a NEW `ThreadPoolExecutor(max_workers=1)`
inside its own body (src/agent/tools.py line 171), submits the single nested
job and blocks on `future.result()` (line 173).  A call is therefore four
ordered events: the caller invokes the tool, the freshly created worker thread
starts the nested run, the nested run ends, and `future.result()` unblocks and
the tool returns.  Each call's worker pool is private to that call, so the
capacity-one constraint binds only calls that share a pool. -/

/-- The event times of one `research` call: invocation by the caller, start
and end of the nested run on the call's worker thread, and return of
`future.result()` to the caller. -/
structure CallTiming where
  invokeT : Nat
  runStartT : Nat
  runEndT : Nat
  retT : Nat
deriving Repr, DecidableEq

/-- Program order within one call (src/agent/tools.py lines 171-173): the
executor is created and the job submitted after the call is invoked, the run
finishes after it starts, and `future.result()` returns only after the nested
run has finished. -/
def wellFormed (c : CallTiming) : Prop :=
  c.invokeT < c.runStartT ∧ c.runStartT < c.runEndT ∧ c.runEndT < c.retT

instance (c : CallTiming) : Decidable (wellFormed c) := by
  unfold wellFormed; infer_instance

/-- The run intervals of two calls overlap: neither nested run finishes
before the other starts. -/
def runsOverlap (a b : CallTiming) : Prop :=
  a.runStartT < b.runEndT ∧ b.runStartT < a.runEndT

instance (a b : CallTiming) : Decidable (runsOverlap a b) := by
  unfold runsOverlap; infer_instance

/-- A single worker of capacity one serializes the runs assigned to it:
their run intervals never overlap. -/
def serializedOnOneWorker (a b : CallTiming) : Prop :=
  ¬ runsOverlap a b

instance (a b : CallTiming) : Decidable (serializedOnOneWorker a b) := by
  unfold serializedOnOneWorker; infer_instance

/-- A schedule of two `research` calls the code admits: each call respects its
own program order, and calls sharing a worker pool are serialized.  `poolOf`
assigns each call its pool; the code's pool assignment is `freshPoolOf`
because line 171 constructs a new executor per call. -/
def CodeSchedule (poolOf : Fin 2 → Nat) (c : Fin 2 → CallTiming) : Prop :=
  (∀ i, wellFormed (c i)) ∧
  (∀ i j, i ≠ j → poolOf i = poolOf j → serializedOnOneWorker (c i) (c j))

instance (poolOf : Fin 2 → Nat) (c : Fin 2 → CallTiming) :
    Decidable (CodeSchedule poolOf c) := by
  unfold CodeSchedule; infer_instance

/-- The pool assignment the code actually uses: `ThreadPoolExecutor` is
constructed inside the `research` body (src/agent/tools.py line 171), so each
call gets its own private pool. -/
def freshPoolOf : Fin 2 → Nat :=
  fun i => i.val

/-- The second call is issued while the first is in flight: it is invoked
after the first call's invocation and before the first call returns. -/
def issuedWhileInFlight (first second : CallTiming) : Prop :=
  first.invokeT < second.invokeT ∧ second.invokeT < first.retT

instance (a b : CallTiming) : Decidable (issuedWhileInFlight a b) := by
  unfold issuedWhileInFlight; infer_instance

/-! ### Observer filter -/

/-- One action (tool call) in the coordinator's outgoing event stream. -/
structure AgAction where
  name : String
  payload : String
deriving Repr, DecidableEq

/-- The allow-list configured at src/agent/main.py lines 50-58
(`emit_tool_calls`). -/
def emit_tool_calls : List String :=
  ["research", "write_todos", "write_file", "read_file", "edit_file"]

/-- Modelled from the spec: the Observer Filter itself lives in the external
`copilotkit` transport layer, not under src/; the spec states it "forwards
only allow-listed actions (by name) downstream" as "a pure, stateless
projection".  The repository contributes only its configuration, the
`emit_tool_calls` allow-list. -/
def observerFilter (allow : List String) (stream : List AgAction) :
    List AgAction :=
  stream.filter (fun a => allow.contains a.name)

/-! ### Concrete environments and scripts for witnesses -/

/-- An environment with no `TAVILY_API_KEY` set. -/
def envNoKey : Env :=
  { tavilyKey := none
  , provider := fun _ _ => Except.ok [] }

/-- An environment whose provider fails with message `"timeout"`. -/
def envProviderFails : Env :=
  { tavilyKey := some "tvly-key"
  , provider := fun _ _ => Except.error "timeout" }

/-- An environment whose provider returns one well-formed record for any
query. -/
def envOneResult : Env :=
  { tavilyKey := some "tvly-key"
  , provider := fun _ _ =>
      Except.ok [{ url := some "https://a.example", title := some "A"
                 , content := some "alpha" }] }

/-- An environment whose provider returns one record that LACKS the `url`
field. -/
def envNoUrlResult : Env :=
  { tavilyKey := some "tvly-key"
  , provider := fun _ _ =>
      Except.ok [{ url := none, title := some "T", content := some "body" }] }

/-- A script that performs one search and then summarizes. -/
def scriptOneSearch : ExecutorScript :=
  { calls := [("q", 5)], outcome := Except.ok "summary" }

/-- A script whose executor raises an unrecoverable fault. -/
def scriptFault : ExecutorScript :=
  { calls := [], outcome := Except.error (PyExc.nestedFault "boom") }

/-- Discriminator for the spec's typed failure: is an exception the typed
`ResearchFailed{cause}` the specification promises? -/
def isResearchFailed : PyExc → Bool
  | PyExc.researchFailed _ => true
  | _ => false

/-! ### Helper lemmas -/

theorem pyTruncate_length_le (s : String) (n : Nat) :
    (pyTruncate s n).length ≤ n := by
  show (s.data.take n).length ≤ n
  exact List.length_take_le n s.data

/-- Every record in the final captured trace is either inherited from the
accumulator or produced by one of this invocation's own search calls. -/
theorem runTrackedCalls_mem (env : Env) :
    ∀ (calls : List (String × Nat)) (acc tr : List SearchResult),
      runTrackedCalls env acc calls = Except.ok tr →
      ∀ r ∈ tr, r ∈ acc ∨
        ∃ qn ∈ calls, ∃ rs,
          do_internet_search env qn.1 qn.2 = Except.ok rs ∧ r ∈ rs
  | [], acc, tr, h, r, hr => by
      simp only [runTrackedCalls] at h
      cases h
      exact Or.inl hr
  | (q, n) :: rest, acc, tr, h, r, hr => by
      simp only [runTrackedCalls, internet_search_tracked] at h
      cases hs : do_internet_search env q n with
      | error e => rw [hs] at h; cases h
      | ok rs =>
          rw [hs] at h
          have ih := runTrackedCalls_mem env rest (acc ++ rs) tr h r hr
          rcases ih with hmem | ⟨qn, hqn, rs2, hrs2, hr2⟩
          · rcases List.mem_append.mp hmem with hacc | hnew
            · exact Or.inl hacc
            · exact Or.inr ⟨(q, n), List.mem_cons_self _ _, rs, hs, hnew⟩
          · exact Or.inr ⟨qn, List.mem_cons_of_mem _ hqn, rs2, hrs2, hr2⟩

/-! ### C3 — Query Client totality -/

/-- C3 counterexample: with `TAVILY_API_KEY` unset, the Query Client does NOT
return normally — the `RuntimeError` raised at src/agent/tools.py line 33
sits outside the `try` block and crosses the boundary, refuting the claim
that no exception ever escapes for every query and limit. -/
theorem C3_counterexample_no_key_raises :
    do_internet_search envNoKey "q" 5 =
      Except.error (PyExc.runtimeError "TAVILY_API_KEY not set") := by
  rfl

/-- C3 (amended): whenever `TAVILY_API_KEY` is set and non-empty, the search
returns normally for every query and limit, and any provider failure becomes
the single-element sentinel list whose element carries `error`. -/
theorem C3_total_when_key_set (env : Env) (q : String) (n : Nat)
    (hkey : hasTavilyKey env = true) :
    (∃ l, do_internet_search env q n = Except.ok l) ∧
    (∀ e, env.provider q n = Except.error e →
      do_internet_search env q n = Except.ok [errorSentinel e] ∧
      (errorSentinel e).error = some e) := by
  constructor
  · unfold do_internet_search
    rw [hkey]
    simp only [if_true]
    cases env.provider q n with
    | error e => exact ⟨[errorSentinel e], rfl⟩
    | ok rs => exact ⟨rs.map formatResult, rfl⟩
  · intro e he
    unfold do_internet_search
    rw [hkey]
    simp [he, errorSentinel]

/-- C3 witness: the provider-failure environment with a key set returns
normally, with the one-element sentinel. -/
theorem C3_total_when_key_set_witness :
    (∃ l, do_internet_search envProviderFails "q" 5 = Except.ok l) ∧
    (∀ e, envProviderFails.provider "q" 5 = Except.error e →
      do_internet_search envProviderFails "q" 5 = Except.ok [errorSentinel e] ∧
      (errorSentinel e).error = some e) :=
  C3_total_when_key_set envProviderFails "q" 5 (by decide)

/-! ### C5 — Query Client bounds -/

/-- C5: for every query and every `limit ≥ 1`, when the API key is set and
the external provider honours its contract of returning at most
`max_results` raw records, the Query Client returns normally with at most
`limit` records, each of whose `content` values has length at most 3000.
(The count bound in the success branch is the provider's; the code forwards
`max_results` to the provider at src/agent/tools.py lines 37-42 and maps all
returned records.  The failure branch returns one sentinel, and `1 ≤ limit`.) -/
theorem C5_bounded_results (env : Env) (q : String) (limit : Nat)
    (hlim : 1 ≤ limit) (hkey : hasTavilyKey env = true)
    (hprov : ∀ rs, env.provider q limit = Except.ok rs → rs.length ≤ limit) :
    ∃ l, do_internet_search env q limit = Except.ok l ∧
      l.length ≤ limit ∧
      ∀ r ∈ l, ∀ c, r.content = some c → c.length ≤ 3000 := by
  unfold do_internet_search
  rw [hkey]
  simp only [if_true]
  cases hp : env.provider q limit with
  | error e =>
      refine ⟨[errorSentinel e], rfl, by simpa using hlim, ?_⟩
      intro r hr c hc
      simp only [List.mem_singleton] at hr
      subst hr
      cases hc
  | ok rs =>
      refine ⟨rs.map formatResult, rfl, by simpa using hprov rs hp, ?_⟩
      intro r hr c hc
      rcases List.mem_map.mp hr with ⟨raw, _, hraw⟩
      subst hraw
      simp only [formatResult, Option.some.injEq] at hc
      subst hc
      exact pyTruncate_length_le _ _

/-- C5 witness: the one-result environment at `limit = 5`. -/
theorem C5_bounded_results_witness :
    ∃ l, do_internet_search envOneResult "q" 5 = Except.ok l ∧
      l.length ≤ 5 ∧
      ∀ r ∈ l, ∀ c, r.content = some c → c.length ≤ 3000 :=
  C5_bounded_results envOneResult "q" 5 (by decide) (by decide)
    (by intro rs h
        have : rs = [{ url := some "https://a.example", title := some "A"
                     , content := some "alpha" }] := by
          cases h; rfl
        subst this; decide)

/-! ### C6 — the tracked wrapper appends exactly what it returns -/

/-- C6: on every invocation of the tracked search that completes, the new
captured trace is the old trace with the raw result list appended
(`search_results.extend(results)`, src/agent/tools.py line 121), and the list
returned to the task executor is the very same list that was appended —
including error sentinels. -/
theorem C6_tracked_appends_returned (env : Env) (trace : List SearchResult)
    (q : String) (n : Nat) (rs : List SearchResult)
    (h : do_internet_search env q n = Except.ok rs) :
    internet_search_tracked env trace q n = Except.ok (trace ++ rs, rs) := by
  unfold internet_search_tracked
  rw [h]

/-- C6 witness: a provider failure, so the appended-and-returned list is the
error sentinel itself. -/
theorem C6_tracked_appends_returned_witness :
    internet_search_tracked envProviderFails [] "q" 5 =
      Except.ok ([] ++ [errorSentinel "timeout"], [errorSentinel "timeout"]) :=
  C6_tracked_appends_returned envProviderFails [] "q" 5 [errorSentinel "timeout"] rfl

/-! ### C2 — fault propagation across the boundary -/

/-- C2 counterexample: when the nested task executor raises an unrecoverable
fault, `research` surfaces the RAW exception to its caller — `future.result()`
(src/agent/tools.py line 173) re-raises the thread's exception unchanged, and
no `try`/`except` wraps it — so the result is the original fault and not the
typed `ResearchFailed{cause}` the claim promises. -/
theorem C2_counterexample_raw_exception_escapes :
    research envOneResult scriptFault =
      Except.error (PyExc.nestedFault "boom") ∧
    isResearchFailed (PyExc.nestedFault "boom") = false := by
  exact ⟨rfl, rfl⟩

/-- C2 (amended): an unrecoverable fault of the nested task executor reaches
the caller of `research` as the single, unchanged original exception
re-raised by `future.result()` — one outcome attributed to the whole call,
with no partial `ResearchOutcome` — but it is NOT wrapped in a typed
`ResearchFailed` failure. -/
theorem C2_fault_propagates_unchanged (env : Env) (script : ExecutorScript)
    (e : PyExc) (tr : List SearchResult)
    (htr : capturedTrace env script = Except.ok tr)
    (hfault : script.outcome = Except.error e) :
    research env script = Except.error e := by
  unfold research run_research_isolated
  unfold capturedTrace at htr
  rw [htr, hfault]

/-- C2 witness: the faulting script under the one-result environment. -/
theorem C2_fault_propagates_unchanged_witness :
    research envOneResult scriptFault =
      Except.error (PyExc.nestedFault "boom") :=
  C2_fault_propagates_unchanged envOneResult scriptFault
    (PyExc.nestedFault "boom") [] rfl rfl

/-! ### C4 — sources are the order-preserving valid filtering of the trace -/

/-- C4: for every completed `research` call, the returned `sources` list is
exactly the captured trace filtered to records that have a `url` key and a
falsy `error`, mapped to source records; every surviving trace record indeed
has `url` present and no truthy `error`; and the surviving records are an
order-preserving sublist of the capture order. -/
theorem C4_sources_filtered_in_capture_order (env : Env)
    (script : ExecutorScript) (out : ResearchOutcome)
    (tr : List SearchResult)
    (htr : capturedTrace env script = Except.ok tr)
    (hout : research env script = Except.ok out) :
    out.sources = (tr.filter keepSource).map mkSource ∧
    (∀ r ∈ tr.filter keepSource,
      r.url.isSome = true ∧ pyFalsy r.error = true) ∧
    List.Sublist (tr.filter keepSource) tr ∧
    (∀ s ∈ out.sources, ∃ r ∈ tr, keepSource r = true ∧ s = mkSource r) := by
  unfold research run_research_isolated at hout
  unfold capturedTrace at htr
  rw [htr] at hout
  cases hsc : script.outcome with
  | error e => rw [hsc] at hout; cases hout
  | ok summary =>
      rw [hsc] at hout
      cases hout
      refine ⟨rfl, ?_, List.filter_sublist tr, ?_⟩
      · intro r hr
        have hk := List.of_mem_filter hr
        exact And.imp_right (fun h => h) (Bool.and_eq_true _ _ |>.mp hk)
      · intro s hs
        rcases List.mem_map.mp hs with ⟨r, hrf, hmk⟩
        exact ⟨r, List.mem_of_mem_filter hrf, List.of_mem_filter hrf, hmk.symm⟩

/-- C4 witness: the one-result environment with one search call. -/
theorem C4_sources_filtered_in_capture_order_witness :
    (ResearchOutcome.mk "summary"
        [{ url := "https://a.example", title := "A", content := "alpha"
         , status := "found" }]).sources =
      (([formatResult { url := some "https://a.example", title := some "A"
                      , content := some "alpha" }].filter keepSource).map
        mkSource) ∧
    (∀ r ∈ [formatResult { url := some "https://a.example", title := some "A"
                         , content := some "alpha" }].filter keepSource,
      r.url.isSome = true ∧ pyFalsy r.error = true) ∧
    List.Sublist
      ([formatResult { url := some "https://a.example", title := some "A"
                     , content := some "alpha" }].filter keepSource)
      [formatResult { url := some "https://a.example", title := some "A"
                    , content := some "alpha" }] ∧
    (∀ s ∈ (ResearchOutcome.mk "summary"
        [{ url := "https://a.example", title := "A", content := "alpha"
         , status := "found" }]).sources,
      ∃ r ∈ [formatResult { url := some "https://a.example", title := some "A"
                          , content := some "alpha" }],
        keepSource r = true ∧ s = mkSource r) :=
  C4_sources_filtered_in_capture_order envOneResult scriptOneSearch
    (ResearchOutcome.mk "summary"
      [{ url := "https://a.example", title := "A", content := "alpha"
       , status := "found" }])
    [formatResult { url := some "https://a.example", title := some "A"
                  , content := some "alpha" }]
    rfl rfl

/-! ### C9 — every source record is `"found"` and bounded -/

/-- C9: every `SourceRecord` in the sources of a completed `research` call
has `status = "found"` (the constant at src/agent/tools.py line 162) and a
`content` of length at most 3000 (the slice at line 161). -/
theorem C9_sources_status_found_content_bounded (env : Env)
    (script : ExecutorScript) (out : ResearchOutcome)
    (hout : research env script = Except.ok out) :
    ∀ s ∈ out.sources, s.status = "found" ∧ s.content.length ≤ 3000 := by
  unfold research run_research_isolated at hout
  cases htr : runTrackedCalls env [] script.calls with
  | error e => rw [htr] at hout; cases hout
  | ok tr =>
      rw [htr] at hout
      cases hsc : script.outcome with
      | error e => rw [hsc] at hout; cases hout
      | ok summary =>
          rw [hsc] at hout
          cases hout
          intro s hs
          rcases List.mem_map.mp hs with ⟨r, _, hmk⟩
          subst hmk
          exact ⟨rfl, pyTruncate_length_le _ _⟩

/-- C9 witness: the one source record of the one-result run. -/
theorem C9_sources_status_found_content_bounded_witness :
    (SourceRecord.mk "https://a.example" "A" "alpha" "found").status =
      "found" ∧
    (SourceRecord.mk "https://a.example" "A" "alpha" "found").content.length ≤
      3000 :=
  C9_sources_status_found_content_bounded envOneResult scriptOneSearch
    (ResearchOutcome.mk "summary"
      [SourceRecord.mk "https://a.example" "A" "alpha" "found"])
    rfl
    (SourceRecord.mk "https://a.example" "A" "alpha" "found")
    (List.mem_singleton.mpr rfl)

/-! ### C7 — a fresh, exclusively owned trace per invocation -/

/-- C7: each invocation's captured trace starts from the freshly allocated
empty list (`search_results = []`, src/agent/tools.py line 107) — an
invocation whose executor makes no search calls ends with the empty trace —
and, for any two invocations, each trace contains only records produced by
that invocation's own search calls, so no record of one invocation's trace
can originate from the other invocation: the traces are never shared or
reused.  In the model the trace is a value local to the invocation, exactly
as the closure list is local to one `_run_research_isolated` frame in the
code, which also covers concurrent invocations. -/
theorem C7_trace_fresh_and_unshared (env1 env2 : Env)
    (s1 s2 : ExecutorScript) (tr1 tr2 : List SearchResult)
    (h1 : capturedTrace env1 s1 = Except.ok tr1)
    (h2 : capturedTrace env2 s2 = Except.ok tr2) :
    (s1.calls = [] → tr1 = []) ∧
    (∀ r ∈ tr1, ∃ qn ∈ s1.calls, ∃ rs,
      do_internet_search env1 qn.1 qn.2 = Except.ok rs ∧ r ∈ rs) ∧
    (∀ r ∈ tr2, ∃ qn ∈ s2.calls, ∃ rs,
      do_internet_search env2 qn.1 qn.2 = Except.ok rs ∧ r ∈ rs) := by
  unfold capturedTrace at h1 h2
  refine ⟨?_, ?_, ?_⟩
  · intro hnil
    rw [hnil] at h1
    simp only [runTrackedCalls] at h1
    cases h1
    rfl
  · intro r hr
    have := runTrackedCalls_mem env1 s1.calls [] tr1 h1 r hr
    rcases this with habs | hgood
    · cases habs
    · exact hgood
  · intro r hr
    have := runTrackedCalls_mem env2 s2.calls [] tr2 h2 r hr
    rcases this with habs | hgood
    · cases habs
    · exact hgood

/-- C7 witness: two concrete invocations — one against the well-formed
provider, one against the failing provider. -/
theorem C7_trace_fresh_and_unshared_witness :
    (scriptOneSearch.calls = [] →
      [formatResult { url := some "https://a.example", title := some "A"
                    , content := some "alpha" }] = []) ∧
    (∀ r ∈ [formatResult { url := some "https://a.example", title := some "A"
                         , content := some "alpha" }],
      ∃ qn ∈ scriptOneSearch.calls, ∃ rs,
        do_internet_search envOneResult qn.1 qn.2 = Except.ok rs ∧ r ∈ rs) ∧
    (∀ r ∈ [errorSentinel "timeout"],
      ∃ qn ∈ scriptOneSearch.calls, ∃ rs,
        do_internet_search envProviderFails qn.1 qn.2 = Except.ok rs ∧
        r ∈ rs) :=
  C7_trace_fresh_and_unshared envOneResult envProviderFails
    scriptOneSearch scriptOneSearch
    [formatResult { url := some "https://a.example", title := some "A"
                  , content := some "alpha" }]
    [errorSentinel "timeout"]
    rfl rfl

/-! ### C1 — serialization of concurrent `research` calls -/

/-- A concrete timing of a first `research` call. -/
def cexFirst : CallTiming :=
  { invokeT := 0, runStartT := 1, runEndT := 6, retT := 7 }

/-- A concrete timing of a second `research` call, issued while the first is
in flight and finishing before it. -/
def cexSecond : CallTiming :=
  { invokeT := 2, runStartT := 3, runEndT := 4, retT := 5 }

/-- The two-call schedule pairing `cexFirst` and `cexSecond`. -/
def cexSchedule : Fin 2 → CallTiming :=
  fun i => if i.val = 0 then cexFirst else cexSecond

/-- C1 counterexample: the code admits a schedule in which the second call is
issued while the first is in flight, their nested runs overlap, and the
second completes BEFORE the first returns.  Each call constructs its own
`ThreadPoolExecutor(max_workers=1)` at src/agent/tools.py line 171, so the
capacity-one constraint never binds two distinct calls (`freshPoolOf` is
injective) and nothing serializes them. -/
theorem C1_counterexample_overlapping_schedule :
    CodeSchedule freshPoolOf cexSchedule ∧
    issuedWhileInFlight cexFirst cexSecond ∧
    runsOverlap cexFirst cexSecond ∧
    cexSecond.retT < cexFirst.retT := by
  decide

/-- C1 (amended): each `research` call blocks its own caller until its nested
run completes (`future.result()`, src/agent/tools.py line 173), so two calls
issued sequentially — the second invoked only after the first returns — never
run concurrently; but the capacity-one executor is created privately inside
each call, so calls issued concurrently from different threads do not queue
behind one another. -/
theorem C1_sequential_calls_never_overlap (c : Fin 2 → CallTiming)
    (hsched : CodeSchedule freshPoolOf c)
    (hseq : (c 0).retT ≤ (c 1).invokeT) :
    (c 0).runEndT < (c 0).retT ∧
    (c 1).invokeT < (c 1).runStartT ∧
    ¬ runsOverlap (c 0) (c 1) := by
  obtain ⟨hwf, _⟩ := hsched
  have h0 := hwf 0
  have h1 := hwf 1
  unfold wellFormed at h0 h1
  unfold runsOverlap
  omega

/-- C1 witness: a concrete sequential schedule. -/
theorem C1_sequential_calls_never_overlap_witness :
    ((fun i : Fin 2 =>
        if i.val = 0 then CallTiming.mk 0 1 2 3
        else CallTiming.mk 4 5 6 7) 0).runEndT <
      ((fun i : Fin 2 =>
        if i.val = 0 then CallTiming.mk 0 1 2 3
        else CallTiming.mk 4 5 6 7) 0).retT ∧
    ((fun i : Fin 2 =>
        if i.val = 0 then CallTiming.mk 0 1 2 3
        else CallTiming.mk 4 5 6 7) 1).invokeT <
      ((fun i : Fin 2 =>
        if i.val = 0 then CallTiming.mk 0 1 2 3
        else CallTiming.mk 4 5 6 7) 1).runStartT ∧
    ¬ runsOverlap
      ((fun i : Fin 2 =>
        if i.val = 0 then CallTiming.mk 0 1 2 3
        else CallTiming.mk 4 5 6 7) 0)
      ((fun i : Fin 2 =>
        if i.val = 0 then CallTiming.mk 0 1 2 3
        else CallTiming.mk 4 5 6 7) 1) :=
  C1_sequential_calls_never_overlap
    (fun i : Fin 2 =>
      if i.val = 0 then CallTiming.mk 0 1 2 3
      else CallTiming.mk 4 5 6 7)
    (by decide) (by decide)

/-! ### C8 — the observer filter and its allow-list -/

/-- C8: every action the observer filter forwards has a name in the configured
allow-list, and the allow-list configured at src/agent/main.py lines 50-58 is
exactly the five names `research`, `write_todos`, `write_file`, `read_file`,
`edit_file`. -/
theorem C8_filter_forwards_only_allowlisted (stream : List AgAction)
    (a : AgAction) (ha : a ∈ observerFilter emit_tool_calls stream) :
    a.name ∈ emit_tool_calls ∧
    emit_tool_calls =
      ["research", "write_todos", "write_file", "read_file", "edit_file"] := by
  refine ⟨?_, rfl⟩
  unfold observerFilter at ha
  have h := List.of_mem_filter ha
  simpa using h

/-- C8 witness: a concrete forwarded action. -/
theorem C8_filter_forwards_only_allowlisted_witness :
    (AgAction.mk "research" "p").name ∈ emit_tool_calls ∧
    emit_tool_calls =
      ["research", "write_todos", "write_file", "read_file", "edit_file"] :=
  C8_filter_forwards_only_allowlisted
    [AgAction.mk "research" "p", AgAction.mk "internet_search" "q"]
    (AgAction.mk "research" "p") (by decide)

/-! ### C10 — sentinel shape, defaulted keys, and empty-string urls -/

/-- C10: the failure sentinel's only key is `error` (no `url`, `title` or
`content`); every successful formatted result has all three keys `url`,
`title`, `content` present, with absent provider fields defaulted to `""` and
no `error` key; a formatted record whose provider record lacked a URL gets
`url = ""`, still passes the sources filter (which tests key presence, not
non-emptiness); and consequently a completed `research` run can return a
source whose `url` is the empty string. -/
theorem C10_empty_url_passes_filter :
    (∀ msg, errorSentinel msg =
      { url := none, title := none, content := none, error := some msg }) ∧
    (∀ r, formatResult r =
      { url := some (r.url.getD ""), title := some (r.title.getD "")
      , content := some (pyTruncate (r.content.getD "") 3000)
      , error := none }) ∧
    (formatResult { url := none, title := some "T"
                  , content := some "body" }).url = some "" ∧
    keepSource (formatResult { url := none, title := some "T"
                             , content := some "body" }) = true ∧
    research envNoUrlResult scriptOneSearch =
      Except.ok
        { summary := "summary"
        , sources := [{ url := "", title := "T", content := "body"
                      , status := "found" }] } := by
  exact ⟨fun msg => rfl, fun r => rfl, rfl, rfl, rfl⟩
